import Mathlib

/-!
Shallow embedding of the solana vanity-address searcher (src/src/main.rs).

Bytes (Rust `u8`) are modelled as `Nat`; addresses and patterns (`&[u8]`)
as `List Nat`; strings as Lean `String`.  A Rust panic (index out of
bounds, `usize` subtraction underflow) is modelled as `Option.none`:
functions that can panic return `Option Bool` instead of `Bool`.
-/

/-- The `MatchType` enum of the CLI (`Prefix`, `Suffix`, `Either`). -/
inductive MatchType where
  | Prefix
  | Suffix
  | Either
deriving DecidableEq, Repr

/-- `CHAR_LIMIT` from main.rs: the maximal pattern length accepted. -/
def CHAR_LIMIT : Nat := 18

/-- `BASE58_SET` from main.rs: the 58 characters a pattern may use. -/
def BASE58_SET : String := "123456789ABCDEFGHJKLMNPQRSTUVWXYZabcdefghijkmnopqrstuvwxyz"

/-- The byte values of `BASE58_SET`, in order. -/
def BASE58_BYTES : List Nat := BASE58_SET.data.map Char.toNat

/-- Rust `str::len`: the UTF-8 byte length of a string. -/
def utf8Len (s : String) : Nat := s.data.foldl (fun n c => n + c.utf8Size) 0

/-- `validate_find` from main.rs: reject a pattern longer than `CHAR_LIMIT`
bytes, then reject on the first character outside `BASE58_SET`; otherwise
return the pattern itself. -/
def validate_find (s : String) : Except String String :=
  if CHAR_LIMIT < utf8Len s then
    Except.error ("Pattern is too long to search for; current char limit: "
      ++ toString CHAR_LIMIT)
  else
    match s.data.find? (fun ch => !(BASE58_SET.data.contains ch)) with
    | some ch => Except.error ("Invalid character '" ++ ch.toString
        ++ "' in pattern. Only base58 characters allowed: " ++ BASE58_SET)
    | none => Except.ok s

/-- Rust `u8::to_ascii_lowercase`: map `A`..`Z` (65..90) to `a`..`z`. -/
def to_ascii_lowercase (b : Nat) : Nat :=
  if 65 ≤ b ∧ b ≤ 90 then b + 32 else b

/-- Rust `u8::eq_ignore_ascii_case`: equality after ASCII lowercasing. -/
def eq_ignore_ascii_case (c target : Nat) : Bool :=
  to_ascii_lowercase c == to_ascii_lowercase target

/-- `matches_flexible` from main.rs: the confusability table, a match on the
pattern byte `target` giving the accepted address bytes `c`.  Byte values are
written in decimal with the source's character in a comment. -/
def matches_flexible (c target : Nat) : Bool :=
  match target with
  | 49 => c == 49 || c == 105 || c == 76            -- '1' accepts 1 i L
  | 50 => c == 50 || c == 122 || c == 90            -- '2' accepts 2 z Z
  | 51 => c == 51 || c == 69                        -- '3' accepts 3 E
  | 52 => c == 52 || c == 65                        -- '4' accepts 4 A
  | 53 => c == 53 || c == 115 || c == 83            -- '5' accepts 5 s S
  | 54 => c == 54 || c == 98 || c == 71             -- '6' accepts 6 b G
  | 55 => c == 55 || c == 84                        -- '7' accepts 7 T
  | 56 => c == 56 || c == 66                        -- '8' accepts 8 B
  | 57 => c == 57 || c == 103                       -- '9' accepts 9 g
  | 97 => c == 97 || c == 65 || c == 52             -- 'a' accepts a A 4
  | 98 => c == 98 || c == 66 || c == 54             -- 'b' accepts b B 6
  | 99 => c == 99 || c == 67                        -- 'c' accepts c C
  | 100 => c == 100 || c == 68                      -- 'd' accepts d D
  | 101 => c == 101 || c == 69 || c == 51           -- 'e' accepts e E 3
  | 102 => c == 102 || c == 70                      -- 'f' accepts f F
  | 103 => c == 103 || c == 71 || c == 54 || c == 57 -- 'g' accepts g G 6 9
  | 104 => c == 104 || c == 72                      -- 'h' accepts h H
  | 105 => c == 105 || c == 49                      -- 'i' accepts i 1
  | 106 => c == 106 || c == 74                      -- 'j' accepts j J
  | 107 => c == 107 || c == 75                      -- 'k' accepts k K
  | 109 => c == 109 || c == 77                      -- 'm' accepts m M
  | 110 => c == 110 || c == 78                      -- 'n' accepts n N
  | 111 => c == 111                                 -- 'o' accepts o
  | 112 => c == 112 || c == 80                      -- 'p' accepts p P
  | 113 => c == 113 || c == 81                      -- 'q' accepts q Q
  | 114 => c == 114 || c == 82                      -- 'r' accepts r R
  | 115 => c == 115 || c == 83 || c == 53           -- 's' accepts s S 5
  | 116 => c == 116 || c == 84 || c == 55           -- 't' accepts t T 7
  | 117 => c == 117 || c == 85                      -- 'u' accepts u U
  | 118 => c == 118 || c == 86                      -- 'v' accepts v V
  | 119 => c == 119 || c == 87                      -- 'w' accepts w W
  | 120 => c == 120 || c == 88                      -- 'x' accepts x X
  | 121 => c == 121 || c == 89                      -- 'y' accepts y Y
  | 122 => c == 122 || c == 90 || c == 50           -- 'z' accepts z Z 2
  | 65 => c == 97 || c == 65 || c == 52             -- 'A' accepts a A 4
  | 66 => c == 98 || c == 66 || c == 54 || c == 56  -- 'B' accepts b B 6 8
  | 67 => c == 99 || c == 67                        -- 'C' accepts c C
  | 68 => c == 100 || c == 68                       -- 'D' accepts d D
  | 69 => c == 101 || c == 69 || c == 51            -- 'E' accepts e E 3
  | 70 => c == 102 || c == 70                       -- 'F' accepts f F
  | 71 => c == 103 || c == 71 || c == 54 || c == 57 -- 'G' accepts g G 6 9
  | 72 => c == 104 || c == 72                       -- 'H' accepts h H
  | 74 => c == 106 || c == 74                       -- 'J' accepts j J
  | 75 => c == 107 || c == 75                       -- 'K' accepts k K
  | 76 => c == 76 || c == 49                        -- 'L' accepts L 1
  | 77 => c == 109 || c == 77                       -- 'M' accepts m M
  | 78 => c == 110 || c == 78                       -- 'N' accepts n N
  | 80 => c == 112 || c == 80                       -- 'P' accepts p P
  | 81 => c == 113 || c == 81                       -- 'Q' accepts q Q
  | 82 => c == 114 || c == 82                       -- 'R' accepts r R
  | 83 => c == 115 || c == 83 || c == 53            -- 'S' accepts s S 5
  | 84 => c == 116 || c == 84 || c == 55            -- 'T' accepts t T 7
  | 85 => c == 117 || c == 85                       -- 'U' accepts u U
  | 86 => c == 118 || c == 86                       -- 'V' accepts v V
  | 87 => c == 119 || c == 87                       -- 'W' accepts w W
  | 88 => c == 120 || c == 88                       -- 'X' accepts x X
  | 89 => c == 121 || c == 89                       -- 'Y' accepts y Y
  | 90 => c == 122 || c == 90 || c == 50            -- 'Z' accepts z Z 2
  | _ => eq_ignore_ascii_case c target

/-- `matches_char` from main.rs: exact equality when case-sensitive, the
confusability table when flexible, ASCII case-insensitive equality otherwise. -/
def matches_char (c target : Nat) (case_sensitive flexible : Bool) : Bool :=
  if case_sensitive then
    c == target
  else if flexible then
    matches_flexible c target
  else
    eq_ignore_ascii_case c target

/-- One of the character-comparison loops of `matches_pattern`: compare the
pattern bytes in order against the pubkey bytes starting at index `idx`,
returning `some false` on the first mismatch and `some true` at the end.
Accessing `pubkey` out of range (Rust `pubkey[_]` panic) gives `none`. -/
def loopChars (pubkey : List Nat) (cs fl : Bool) : Nat → List Nat → Option Bool
  | _, [] => some true
  | idx, t :: ts =>
    match pubkey.get? idx with
    | none => none
    | some c => if matches_char c t cs fl then loopChars pubkey cs fl (idx + 1) ts
                else some false

/-- `matches_pattern` from main.rs.  The flexible flag is forced off when
case-sensitive.  `Prefix` compares at index 0; `Suffix` compares at
`pubkey_len - pattern_len`, a `usize` subtraction that panics (debug) or
yields an out-of-range index (release) when the pattern is longer than the
pubkey — modelled as `none`; `Either` runs the prefix loop, returns on a
full match, and otherwise runs the suffix comparison. -/
def matches_pattern (pubkey pattern : List Nat) (match_type : MatchType)
    (case_sensitive flexible_chars : Bool) : Option Bool :=
  let pubkey_len := pubkey.length
  let pattern_len := pattern.length
  let fl := if case_sensitive then false else flexible_chars
  match match_type with
  | MatchType.Prefix => loopChars pubkey case_sensitive fl 0 pattern
  | MatchType.Suffix =>
    if pattern_len ≤ pubkey_len then
      loopChars pubkey case_sensitive fl (pubkey_len - pattern_len) pattern
    else none
  | MatchType.Either =>
    match loopChars pubkey case_sensitive fl 0 pattern with
    | none => none
    | some true => some true
    | some false =>
      if pattern_len ≤ pubkey_len then
        loopChars pubkey case_sensitive fl (pubkey_len - pattern_len) pattern
      else none

/-- One worker of main's parallel search (the closure passed to
`find_map_any`), modelled sequentially.  `gen n` is the address derived from
the `n`-th keypair the worker generates (the Key Generator); `found` is the
shared cancellation flag, which nothing external flips during the modelled
run; `calls` counts generator calls so far; `fuel` bounds the number of loop
iterations unrolled (the real loop is unbounded).  Result: the worker's
yielded value (`some (some addr)` a found keypair's address, `some none` the
loop exited with no value) paired with the total generator-call count;
`none` in the first component marks a modelling cutoff (fuel ran out) or a
matcher panic. -/
def workerLoop (gen : Nat → List Nat) (pattern : List Nat) (mt : MatchType)
    (cs fl : Bool) (found : Bool) (calls : Nat) :
    Nat → Option (Option (List Nat)) × Nat :=
  fun fuel =>
    if found then (some none, calls)
    else
      match fuel with
      | 0 => (none, calls)
      | Nat.succ f =>
        let addr := gen calls
        match matches_pattern addr pattern mt cs fl with
        | none => (none, calls + 1)
        | some true => (some (some addr), calls + 1)
        | some false => workerLoop gen pattern mt cs fl found (calls + 1) f

/-- Main's search coordinator: `threads` workers (worker `w` drawing
addresses from `gens w`), the first yielded keypair-address is the result;
`none` is the `NotFound` outcome. -/
def search (gens : Nat → Nat → List Nat) (threads : Nat) (pattern : List Nat)
    (mt : MatchType) (cs fl : Bool) (found : Bool) (fuel : Nat) :
    Option (List Nat) :=
  (List.range threads).findSome? fun w =>
    ((workerLoop (gens w) pattern mt cs fl found 0 fuel).1).getD none

lemma loopChars_spec (pubkey : List Nat) (cs fl : Bool) :
    ∀ (pattern : List Nat) (idx : Nat), idx + pattern.length ≤ pubkey.length →
      loopChars pubkey cs fl idx pattern =
        some (decide (∀ i, i < pattern.length →
          matches_char ((pubkey.get? (idx + i)).getD 0)
            ((pattern.get? i).getD 0) cs fl = true)) := by
  intro pattern
  induction pattern with
  | nil =>
    intro idx h
    simp [loopChars]
  | cons t ts ih =>
    intro idx h
    have hidx : idx < pubkey.length := by simp at h; omega
    obtain ⟨c0, hg⟩ : ∃ c0, pubkey.get? idx = some c0 := by
      cases hg : pubkey.get? idx with
      | none => exact absurd (List.get?_eq_none.mp hg) (by omega)
      | some c => exact ⟨c, rfl⟩
    have hgD : (pubkey.get? idx).getD 0 = c0 := by rw [hg]; rfl
    have hgE : (pubkey[idx]?).getD 0 = c0 := by
      rw [← List.get?_eq_getElem?]; exact hgD
    simp only [loopChars, hg]
    by_cases hm : matches_char c0 t cs fl = true
    · rw [if_pos hm, ih (idx + 1) (by simp at h ⊢; omega)]
      congr 1
      rw [decide_eq_decide]
      constructor
      · intro hall i hi
        cases i with
        | zero => simpa [hgE] using hm
        | succ j =>
          have hj := hall j (by simp at hi; omega)
          rw [show idx + 1 + j = idx + (j + 1) by omega] at hj
          simpa using hj
      · intro hall i hi
        have hj := hall (i + 1) (by simp; omega)
        rw [show idx + (i + 1) = idx + 1 + i by omega] at hj
        simpa using hj
    · rw [if_neg hm]
      have hnot : ¬ (∀ i, i < (t :: ts).length →
          matches_char ((pubkey.get? (idx + i)).getD 0)
            (((t :: ts).get? i).getD 0) cs fl = true) := by
        intro hall
        exact hm (by simpa [hgE] using hall 0 (by simp))
      rw [decide_eq_false hnot]

/-- C1: the spec requires a pattern longer than the address to be a definite
non-match (`false`) with no arithmetic fault, but the code's `Suffix` and
`Either` paths compute `pubkey_len - pattern_len` in `usize` and index the
pubkey out of range: the run panics, modelled as `none` rather than
`some false`. -/
theorem matches_pattern_long_pattern_panics :
    matches_pattern [65] [65, 66] MatchType.Suffix false false = none ∧
    matches_pattern [65] [65, 66] MatchType.Either false false = none := by
  exact ⟨rfl, rfl⟩

/-- C2: with `len(P) ≤ len(A)`, prefix matching holds exactly when every
pattern byte compares equal to the address byte at the same index under the
effective per-character comparison (`matches_char` with the flexible flag
forced off when case-sensitive). -/
theorem matches_pattern_prefix_iff (pubkey pattern : List Nat)
    (cs fl : Bool) (h : pattern.length ≤ pubkey.length) :
    matches_pattern pubkey pattern MatchType.Prefix cs fl = some true ↔
      ∀ i, (hi : i < pattern.length) →
        matches_char (pubkey.get ⟨i, lt_of_lt_of_le hi h⟩)
          (pattern.get ⟨i, hi⟩) cs (if cs then false else fl) = true := by
  have hs := loopChars_spec pubkey cs (if cs then false else fl) pattern 0
    (by omega)
  rw [show matches_pattern pubkey pattern MatchType.Prefix cs fl
      = loopChars pubkey cs (if cs then false else fl) 0 pattern from rfl, hs]
  simp only [Option.some.injEq, decide_eq_true_eq]
  constructor
  · intro hp i hi
    have hpi := hp i hi
    rw [Nat.zero_add, List.get?_eq_get (lt_of_lt_of_le hi h),
      List.get?_eq_get hi] at hpi
    simpa using hpi
  · intro hp i hi
    rw [Nat.zero_add, List.get?_eq_get (lt_of_lt_of_le hi h),
      List.get?_eq_get hi]
    simpa using hp i hi

/-- C2 witness. -/
theorem matches_pattern_prefix_iff_witness :
    matches_pattern [57, 109, 66, 120] [57, 109, 66] MatchType.Prefix
      true false = some true :=
  (matches_pattern_prefix_iff [57, 109, 66, 120] [57, 109, 66] true false
    (by decide)).mpr (by decide)

lemma matches_pattern_either_of_some (pubkey pattern : List Nat)
    (cs fl : Bool) (bp bs : Bool)
    (hp : matches_pattern pubkey pattern MatchType.Prefix cs fl = some bp)
    (hs : matches_pattern pubkey pattern MatchType.Suffix cs fl = some bs) :
    matches_pattern pubkey pattern MatchType.Either cs fl = some (bp || bs) := by
  simp only [matches_pattern] at hp hs ⊢
  set flx := (if cs = true then false else fl) with hflx
  by_cases hle : pattern.length ≤ pubkey.length
  · rw [if_pos hle] at hs
    rw [hp]
    cases bp with
    | false => simpa [hle] using hs
    | true => simp
  · rw [if_neg hle] at hs
    exact absurd hs (by simp)

/-- C3: with `len(P) ≤ len(A)`, the prefix and suffix checks are definite
(no panic), and `Either` returns their boolean disjunction, with the same
flags. -/
theorem matches_pattern_either_eq_or (pubkey pattern : List Nat)
    (cs fl : Bool) (h : pattern.length ≤ pubkey.length) :
    (matches_pattern pubkey pattern MatchType.Prefix cs fl).isSome = true ∧
    (matches_pattern pubkey pattern MatchType.Suffix cs fl).isSome = true ∧
    matches_pattern pubkey pattern MatchType.Either cs fl =
      some ((matches_pattern pubkey pattern MatchType.Prefix cs fl).getD false
        || (matches_pattern pubkey pattern MatchType.Suffix cs fl).getD false) := by
  have hp : matches_pattern pubkey pattern MatchType.Prefix cs fl
      = loopChars pubkey cs (if cs then false else fl) 0 pattern := rfl
  have hs : matches_pattern pubkey pattern MatchType.Suffix cs fl
      = loopChars pubkey cs (if cs then false else fl)
          (pubkey.length - pattern.length) pattern := by
    rw [show matches_pattern pubkey pattern MatchType.Suffix cs fl
        = if pattern.length ≤ pubkey.length then
            loopChars pubkey cs (if cs then false else fl)
              (pubkey.length - pattern.length) pattern
          else none from rfl, if_pos h]
  have hp2 := loopChars_spec pubkey cs (if cs then false else fl) pattern 0
    (by omega)
  have hs2 := loopChars_spec pubkey cs (if cs then false else fl) pattern
    (pubkey.length - pattern.length) (by omega)
  refine ⟨by rw [hp, hp2]; rfl, by rw [hs, hs2]; rfl, ?_⟩
  exact matches_pattern_either_of_some pubkey pattern cs fl _ _
    (by rw [hp, hp2]; rfl) (by rw [hs, hs2]; rfl)

/-- C3 witness. -/
theorem matches_pattern_either_eq_or_witness :
    (matches_pattern [57, 109, 66, 120] [66, 120] MatchType.Prefix
      true false).isSome = true ∧
    (matches_pattern [57, 109, 66, 120] [66, 120] MatchType.Suffix
      true false).isSome = true ∧
    matches_pattern [57, 109, 66, 120] [66, 120] MatchType.Either true false =
      some ((matches_pattern [57, 109, 66, 120] [66, 120] MatchType.Prefix
          true false).getD false
        || (matches_pattern [57, 109, 66, 120] [66, 120] MatchType.Suffix
          true false).getD false) :=
  matches_pattern_either_eq_or [57, 109, 66, 120] [66, 120] true false
    (by decide)

/-- C4: with case sensitivity on, the stored flexible flag is irrelevant:
`matches_pattern` under `flexible_chars = true` equals `matches_pattern`
under `flexible_chars = false`, for every address, pattern and mode. -/
theorem matches_pattern_case_sensitive_ignores_flexible
    (pubkey pattern : List Nat) (mt : MatchType) :
    matches_pattern pubkey pattern mt true true =
      matches_pattern pubkey pattern mt true false := by
  cases mt <;> rfl

/-- C5: flexible matching is reflexive on the base-58 alphabet: every
base-58 byte matches itself under `matches_char` with flexible mode on. -/
theorem matches_char_flexible_refl (c : Nat) (hc : c ∈ BASE58_BYTES) :
    matches_char c c false true = true := by
  have hall : BASE58_BYTES.all (fun b => matches_char b b false true) = true := by
    decide
  exact List.all_eq_true.mp hall c hc

/-- C5 witness. -/
theorem matches_char_flexible_refl_witness :
    (49 : Nat) ∈ BASE58_BYTES ∧ matches_char 49 49 false true = true :=
  ⟨by decide, matches_char_flexible_refl 49 (by decide)⟩

/-- C6: the confusability table is consistent on the documented pair:
pattern byte `g` (103) accepts address byte `9` (57), and pattern byte `9`
accepts address byte `g`. -/
theorem matches_flexible_g_nine_consistent :
    matches_flexible 57 103 = true ∧ matches_flexible 103 57 = true := by
  decide

/-- C7: a pattern byte with no arm in the confusability table (i.e. outside
the base-58 alphabet) falls back to ASCII case-insensitive equality against
any address byte. -/
theorem matches_flexible_fallback (target : Nat)
    (ht : target ∉ BASE58_BYTES) (c : Nat) :
    matches_flexible c target = eq_ignore_ascii_case c target := by
  unfold matches_flexible
  split <;> first
    | rfl
    | exact absurd (by decide) ht

/-- C7 witness: `0` (48) is outside the table and compares by ASCII
case-insensitive equality. -/
theorem matches_flexible_fallback_witness :
    (48 : Nat) ∉ BASE58_BYTES ∧
      matches_flexible 48 48 = eq_ignore_ascii_case 48 48 :=
  ⟨by decide, matches_flexible_fallback 48 (by decide) 48⟩

/-- C8: the validator accepts every 18-byte all-base-58 string, returning
the string itself; rejects every string of 19 or more bytes; and rejects
every string holding a character outside `BASE58_SET`. -/
theorem validate_find_spec (s : String) :
    (utf8Len s = 18 → (∀ c ∈ s.data, BASE58_SET.data.contains c = true) →
      validate_find s = Except.ok s) ∧
    (19 ≤ utf8Len s → ∃ msg, validate_find s = Except.error msg) ∧
    ((∃ c ∈ s.data, BASE58_SET.data.contains c = false) →
      ∃ msg, validate_find s = Except.error msg) := by
  refine ⟨?_, ?_, ?_⟩
  · intro hlen hval
    unfold validate_find
    rw [if_neg (by rw [hlen]; simp [CHAR_LIMIT])]
    have : s.data.find? (fun ch => !(BASE58_SET.data.contains ch)) = none := by
      apply List.find?_eq_none.mpr
      intro a ha
      simpa using hval a ha
    rw [this]
  · intro hlen
    unfold validate_find
    rw [if_pos (by simp [CHAR_LIMIT]; omega)]
    exact ⟨_, rfl⟩
  · intro ⟨c, hc, hcv⟩
    unfold validate_find
    split_ifs with hlong
    · exact ⟨_, rfl⟩
    · cases hfind : s.data.find? (fun ch => !(BASE58_SET.data.contains ch)) with
      | none =>
        exact absurd (List.find?_eq_none.mp hfind c hc) (by simpa using hcv)
      | some ch => exact ⟨_, rfl⟩

/-- C8 witness. -/
theorem validate_find_spec_witness :
    validate_find "111111111111111111" = Except.ok "111111111111111111" ∧
    (∃ msg, validate_find "1111111111111111111" = Except.error msg) ∧
    (∃ msg, validate_find "abcO" = Except.error msg) :=
  ⟨(validate_find_spec "111111111111111111").1 (by decide) (by decide),
   (validate_find_spec "1111111111111111111").2.1 (by decide),
   (validate_find_spec "abcO").2.2 ⟨'O', by decide, by decide⟩⟩

/-- C9: with the shared cancellation flag already set, a worker exits its
loop at once — no generator call, no keypair yielded — and the overall
search result is `NotFound` (`none`), for any configuration. -/
theorem search_preset_flag_notfound (gen : Nat → List Nat)
    (gens : Nat → Nat → List Nat) (threads : Nat) (pattern : List Nat)
    (mt : MatchType) (cs fl : Bool) (fuel : Nat) :
    workerLoop gen pattern mt cs fl true 0 fuel = (some none, 0) ∧
    search gens threads pattern mt cs fl true fuel = none := by
  have hw : ∀ g : Nat → List Nat,
      workerLoop g pattern mt cs fl true 0 fuel = (some none, 0) := by
    intro g
    cases fuel <;> simp [workerLoop]
  refine ⟨hw gen, ?_⟩
  unfold search
  apply List.findSome?_eq_none_iff.mpr
  intro w _
  rw [hw (gens w)]
  rfl

/-- C10: flexible matching distinguishes the case of the pattern letter:
pattern byte `B` (66) accepts address byte `8` (56) while pattern byte `b`
(98) does not. -/
theorem matches_flexible_case_asymmetry :
    matches_flexible 56 66 = true ∧ matches_flexible 56 98 = false := by
  decide
